import Mathlib

/-!
Verification of the OpsBeacon Python SDK client (`opsbeacon/client.py`,
`opsbeacon/exceptions.py`) against its specification.

The embedding is shallow: JSON values are modelled by the mutual inductive
`JVal`/`JArr`/`JObj`; Python dictionaries become association lists (`JObj`),
HTTP effects become explicit inputs (the response, or the outcome of a
lower-level call), and exceptions become an explicit outcome type
(`PyResult`).  Each client function that a claim mentions is translated
from the source; human-readable message strings carried by the SDK
exceptions are not modelled (no claim concerns them) — the structured
fields of each exception class are.
-/

mutual
/-- JSON values.  `arr`/`obj` use the companion inductives `JArr`/`JObj`
rather than `List` so that decidable equality can be derived. -/
inductive JVal where
  | null
  | boolv (b : Bool)
  | num (n : Int)
  | str (s : String)
  | arr (elems : JArr)
  | obj (fields : JObj)
  deriving DecidableEq, Repr
inductive JArr where
  | nil
  | cons (hd : JVal) (tl : JArr)
  deriving DecidableEq, Repr
inductive JObj where
  | nil
  | cons (key : String) (v : JVal) (tl : JObj)
  deriving DecidableEq, Repr
end

/-- Convert a `List` of JSON values into a `JArr`. -/
def JArr.ofList : List JVal → JArr
  | [] => .nil
  | x :: xs => .cons x (JArr.ofList xs)

/-- Convert a `JArr` back into a `List`. -/
def JArr.toList : JArr → List JVal
  | .nil => []
  | .cons x xs => x :: JArr.toList xs

@[simp] theorem jarrToList_ofListJArr (l : List JVal) : (JArr.ofList l).toList = l := by
  induction l with
  | nil => rfl
  | cons x xs ih => simp [JArr.ofList, JArr.toList, ih]

/-- Build a `JObj` from an association list (keys assumed distinct, as in a
Python dict). -/
def JObj.ofList : List (String × JVal) → JObj
  | [] => .nil
  | (k, v) :: xs => .cons k v (JObj.ofList xs)

/-- Flatten a `JObj` into an association list. -/
def JObj.toList : JObj → List (String × JVal)
  | .nil => []
  | .cons k v xs => (k, v) :: JObj.toList xs

@[simp] theorem jobjToList_ofListJObj (l : List (String × JVal)) :
    (JObj.ofList l).toList = l := by
  induction l with
  | nil => rfl
  | cons x xs ih => cases x; simp [JObj.ofList, JObj.toList, ih]

/-- Python `dict.get(k)`: the value stored under `k`, if any (keys of a
Python dict are unique; the first match is the match). -/
def JObj.get : JObj → String → Option JVal
  | .nil, _ => none
  | .cons k v t, key => if k = key then some v else JObj.get t key

/-- Python dict item assignment `d[k] = v`: replaces the value in place when
the key exists (keeping its position) and appends the pair otherwise. -/
def JObj.set : JObj → String → JVal → JObj
  | .nil, key, v => .cons key v .nil
  | .cons k w t, key, v => if k = key then .cons k v t else .cons k w (JObj.set t key v)

/-- The keys of a `JObj`, in order. -/
def JObj.keys : JObj → List String
  | .nil => []
  | .cons k _ t => k :: JObj.keys t

/-- `v.get(k)` on a JSON value expected to be a dict.  In Python a non-dict
receiver raises `AttributeError`; every claim below only exercises
dict-shaped receivers, so the non-dict case is modelled as an absent key. -/
def JVal.objGet : JVal → String → Option JVal
  | .obj o, k => o.get k
  | _, _ => none

/-- Python truthiness of a JSON value (`bool(v)`). -/
def JVal.truthy : JVal → Bool
  | .null => false
  | .boolv b => b
  | .num n => n != 0
  | .str s => s != ""
  | .arr .nil => false
  | .arr (.cons _ _) => true
  | .obj .nil => false
  | .obj (.cons _ _ _) => true

/-- Python truthiness of an `Optional[str]` (`None` and `""` are falsy). -/
def optStrTruthy : Option String → Bool
  | none => false
  | some s => s != ""

/-- The structured fields of the SDK exception hierarchy
(`opsbeacon/exceptions.py`).  `rateLimit` models `RateLimitError`, a
subclass of `APIError` constructed with `status_code=429`; `authentication`
records whether the 403 permissions-specific message was used.  Message
strings are not modelled. -/
inductive OBError where
  | authentication (forbidden : Bool)
  | apiError (statusCode : Option Nat) (responseBody : Option String)
  | rateLimit (retryAfter : Option Int)
  | connectionFailure
  | timedOut
  | validation (field : Option String)
  | resourceNotFound (resourceType : String) (resourceId : String)
  | commandExecution (command : Option String) (connection : Option String)
  | fileOperation (fileName : Option String) (operation : Option String)
  | mcpFailure (triggerName : Option String)
  deriving DecidableEq, Repr

/-- `isinstance(e, APIError)`: true for `APIError` itself and its subclass
`RateLimitError`. -/
def OBError.isAPIError : OBError → Bool
  | .apiError _ _ => true
  | .rateLimit _ => true
  | _ => false

/-- `isinstance(e, ResourceNotFoundError)`. -/
def OBError.isResourceNotFound : OBError → Bool
  | .resourceNotFound _ _ => true
  | _ => false

/-- Outcome of running a piece of Python code that may return a value,
raise an SDK exception, or let a plain Python exception (`ValueError`,
`TypeError`, ...) escape. -/
inductive PyResult (α : Type) where
  | ok (a : α)
  | raised (e : OBError)
  | pyExn (msg : String)
  deriving DecidableEq, Repr

/-- Parse an unsigned decimal digit run the way Python `int()` does:
underscores may appear singly between digits. The first character is
already known to be a digit when this is called. -/
def pyDigitsAux : List Char → Nat → Option Nat
  | [], acc => some acc
  | c :: rest, acc =>
    if c.isDigit then pyDigitsAux rest (acc * 10 + (c.toNat - 48))
    else if c = '_' then
      match rest with
      | d :: _ => if d.isDigit then pyDigitsAux rest acc else none
      | [] => none
    else none

/-- Unsigned part of a Python `int()` literal: must start with a digit. -/
def pyUnsignedDigits : List Char → Option Nat
  | [] => none
  | c :: rest => if c.isDigit then pyDigitsAux (c :: rest) 0 else none

/-- ASCII whitespace as stripped by Python `str.strip()` (the common
subset exercised here). -/
def pyIsWs (c : Char) : Bool :=
  c = ' ' || c = '\t' || c = '\r' || c = '\n'

/-- Strip leading and trailing whitespace from a character list. -/
def pyStripWs (l : List Char) : List Char :=
  ((l.dropWhile pyIsWs).reverse.dropWhile pyIsWs).reverse

/-- Python `int(s)` for a base-10 string: surrounding whitespace is
stripped, an optional sign precedes the digits.  `none` models the
`ValueError` that `int()` raises on any other input. -/
def pythonIntOfString (s : String) : Option Int :=
  match pyStripWs s.toList with
  | [] => none
  | '+' :: rest => (pyUnsignedDigits rest).map Int.ofNat
  | '-' :: rest => (pyUnsignedDigits rest).map (fun n => -(n : Int))
  | l => (pyUnsignedDigits l).map Int.ofNat

/-- The slice of an HTTP response that `_handle_response_error` inspects:
the status code, the `Retry-After` header (requests' header lookup is
case-insensitive, so the single canonical header is modelled), the raw
text, and the parsed JSON body (`none` when `response.json()` would raise). -/
structure HTTPResponse where
  statusCode : Nat
  retryAfterHeader : Option String
  jsonBody : Option JVal
  text : String
  deriving DecidableEq, Repr

/-- `OpsBeaconClient._handle_response_error` (client.py lines 137-160):
classifies an HTTP status into a raised SDK exception.  On 429, the code
runs `int(retry_after) if retry_after else None`; a present, non-empty but
non-numeric header therefore raises a plain `ValueError` from `int()`
before `RateLimitError` is ever constructed. -/
def handleResponseError (r : HTTPResponse) : PyResult Unit :=
  if r.statusCode = 401 then .raised (.authentication false)
  else if r.statusCode = 403 then .raised (.authentication true)
  else if r.statusCode = 404 then .raised (.apiError (some 404) (some r.text))
  else if r.statusCode = 429 then
    match r.retryAfterHeader with
    | none => .raised (.rateLimit none)
    | some s =>
      if s = "" then .raised (.rateLimit none)
      else
        match pythonIntOfString s with
        | some n => .raised (.rateLimit (some n))
        | none => .pyExn "ValueError"
  else if r.statusCode ≥ 400 then .raised (.apiError (some r.statusCode) (some r.text))
  else .ok ()

example : pythonIntOfString "60" = some 60 := by decide
example : pythonIntOfString "abc" = none := by decide
example : handleResponseError ⟨429, some "60", none, ""⟩ = .raised (.rateLimit (some 60)) := by
  decide
example : handleResponseError ⟨429, none, none, ""⟩ = .raised (.rateLimit none) := by decide
example : handleResponseError ⟨429, some "abc", none, ""⟩ = .pyExn "ValueError" := by decide

/-- C1, counterexample.  A 429 response with the non-numeric header
`Retry-After: abc` does not raise a rate-limit error at all: `int("abc")`
raises a plain `ValueError` before `RateLimitError` is constructed, so the
claim that such a response "still yields the rate-limit error with
retry_after unset" is false. -/
theorem c1_counterexample_nonnumeric_retry_after :
    handleResponseError ⟨429, some "abc", none, ""⟩ = .pyExn "ValueError" ∧
    handleResponseError ⟨429, some "abc", none, ""⟩ ≠ .raised (.rateLimit none) := by
  constructor
  · decide
  · decide

/-- C1, amended.  For every 429 response handled by
`_handle_response_error`: when the `Retry-After` header is absent or empty
the raised rate-limit error has `retry_after = None`; when the header is
present and parses as a Python base-10 integer the raised rate-limit error
carries that numeric value; when the header is present, non-empty and
non-numeric, a plain `ValueError` escapes from `int()` and no rate-limit
error is raised. -/
theorem c1_rate_limit_retry_after (r : HTTPResponse) (h : r.statusCode = 429) :
    (r.retryAfterHeader = none → handleResponseError r = .raised (.rateLimit none)) ∧
    (r.retryAfterHeader = some "" → handleResponseError r = .raised (.rateLimit none)) ∧
    (∀ s n, r.retryAfterHeader = some s → pythonIntOfString s = some n →
      handleResponseError r = .raised (.rateLimit (some n))) ∧
    (∀ s, r.retryAfterHeader = some s → s ≠ "" → pythonIntOfString s = none →
      handleResponseError r = .pyExn "ValueError") := by
  refine ⟨fun hs => ?_, fun hs => ?_, fun s n hs hp => ?_, fun s hs hne hp => ?_⟩
  · simp [handleResponseError, h, hs]
  · simp [handleResponseError, h, hs]
  · have hne : s ≠ "" := by
      intro he
      subst he
      simp [pythonIntOfString, pyStripWs, pyUnsignedDigits] at hp
    simp [handleResponseError, h, hs, hne, hp]
  · simp [handleResponseError, h, hs, hne, hp]

/-- C1, witness for the amended theorem: a concrete 429 response with
header `Retry-After: 60` yields a rate-limit error whose retry-after is
60. -/
theorem c1_rate_limit_retry_after_witness :
    handleResponseError ⟨429, some "60", none, ""⟩ = .raised (.rateLimit (some 60)) :=
  (c1_rate_limit_retry_after ⟨429, some "60", none, ""⟩ rfl).2.2.1 "60" 60 rfl (by decide)

/-- States of the `shlex` lexer in POSIX mode: between/inside a word,
after a backslash outside quotes, inside single quotes, inside double
quotes, and after a backslash inside double quotes. -/
inductive ShState where
  | norm
  | esc
  | sq
  | dq
  | dqEsc
  deriving DecidableEq, Repr

/-- `shlex.whitespace`: the characters that separate tokens. -/
def shWhitespace (c : Char) : Bool :=
  c = ' ' || c = '\t' || c = '\r' || c = '\n'

/-- Core loop of `shlex.split(s)` (POSIX mode, `whitespace_split=True`):
whitespace separates tokens; single quotes group literally; double quotes
group with backslash escaping only `"` and `\`; a backslash outside quotes
makes the next character literal.  A token is emitted when non-empty or
when any part of it was quoted (so `""` yields an empty token).  `none`
models the `ValueError` raised on an unclosed quote or a trailing
escape. -/
def shlexAux : List Char → ShState → String → Bool → List String → Option (List String)
  | [], st, tok, quoted, acc =>
    match st with
    | .norm => if tok ≠ "" ∨ quoted then some (acc ++ [tok]) else some acc
    | _ => none
  | c :: rest, st, tok, quoted, acc =>
    match st with
    | .norm =>
      if shWhitespace c then
        if tok ≠ "" ∨ quoted then shlexAux rest .norm "" false (acc ++ [tok])
        else shlexAux rest .norm "" false acc
      else if c = '\'' then shlexAux rest .sq tok true acc
      else if c = '"' then shlexAux rest .dq tok true acc
      else if c = '\\' then shlexAux rest .esc tok quoted acc
      else shlexAux rest .norm (tok.push c) quoted acc
    | .esc => shlexAux rest .norm (tok.push c) quoted acc
    | .sq =>
      if c = '\'' then shlexAux rest .norm tok quoted acc
      else shlexAux rest .sq (tok.push c) quoted acc
    | .dq =>
      if c = '"' then shlexAux rest .norm tok quoted acc
      else if c = '\\' then shlexAux rest .dqEsc tok quoted acc
      else shlexAux rest .dq (tok.push c) quoted acc
    | .dqEsc =>
      if c = '"' || c = '\\' then shlexAux rest .dq (tok.push c) quoted acc
      else shlexAux rest .dq ((tok.push '\\').push c) quoted acc

/-- `shlex.split(s)`: shell-style tokenization of a command-argument
string. -/
def shlexSplit (s : String) : Option (List String) :=
  shlexAux s.toList .norm "" false []

example : shlexSplit "--a b" = some ["--a", "b"] := by decide
example : shlexSplit "a \"b c\" d" = some ["a", "b c", "d"] := by decide
example : shlexSplit "" = some [] := by decide

/-- Argument forms accepted by `run`: a single string or a list of
tokens. -/
def RunArgs : Type := String ⊕ List String

/-- Request-body construction in `OpsBeaconClient.run` (client.py lines
550-566): free-text mode when `command_text` is truthy; otherwise
structured mode requiring truthy `command` and `connection`, where a
string `args` is tokenized with `shlex.split` (empty string bypasses the
split) and a list `args` is passed through; a missing or falsy
combination raises a validation error.  The returned `JObj` is the JSON
body of the single POST to `/trigger/v1/api`. -/
def runRequestBody (command_text connection command : Option String)
    (args : Option RunArgs) : PyResult JObj :=
  if optStrTruthy command_text then
    .ok (JObj.ofList [("commandLine", .str (command_text.getD ""))])
  else if optStrTruthy command && optStrTruthy connection then
    let argsList : PyResult (List String) :=
      match args with
      | some (.inl s) =>
        if s ≠ "" then
          match shlexSplit s with
          | some toks => .ok toks
          | none => .pyExn "ValueError"
        else .ok []
      | some (.inr l) => .ok l
      | none => .ok []
    match argsList with
    | .ok l =>
      .ok (JObj.ofList
        [("command", .str (command.getD "")),
         ("connection", .str (connection.getD "")),
         ("arguments", .arr (JArr.ofList (l.map JVal.str)))])
    | .raised e => .raised e
    | .pyExn m => .pyExn m
  else .raised (.validation none)

/-- C6.  In structured mode, `run` tokenizes a string `args` with
shell-style tokenization and passes an already-separated token list
through unchanged: a string and a list representing the same tokens
produce an identical request body, absent `args` produces the same body
as an empty token list, and `"--a b"` tokenizes to `["--a", "b"]`. -/
theorem c6_run_args_tokenization (C M s : String) (toks : List String)
    (hs : shlexSplit s = some toks) :
    runRequestBody none (some C) (some M) (some (Sum.inl s)) =
      runRequestBody none (some C) (some M) (some (Sum.inr toks)) ∧
    runRequestBody none (some C) (some M) none =
      runRequestBody none (some C) (some M) (some (Sum.inr [])) ∧
    shlexSplit "--a b" = some ["--a", "b"] := by
  refine ⟨?_, rfl, by decide⟩
  by_cases he : s = ""
  · subst he
    have h0 : shlexSplit "" = some [] := by decide
    rw [h0] at hs
    have : toks = [] := by injection hs with h; exact h.symm
    subst this
    rfl
  · unfold runRequestBody
    simp [he, hs]

/-- C6, witness: with connection `myserver` and command `check-disk`, the
string `"--a b"` and the list `["--a", "b"]` produce identical request
bodies. -/
theorem c6_run_args_tokenization_witness :
    runRequestBody none (some "myserver") (some "check-disk") (some (Sum.inl "--a b")) =
      runRequestBody none (some "myserver") (some "check-disk")
        (some (Sum.inr ["--a", "b"])) :=
  (c6_run_args_tokenization "myserver" "check-disk" "--a b" ["--a", "b"] (by decide)).1

/-- The extraction loop shared by `create_mcp_trigger` and
`update_mcp_trigger`: for each tool instance, read
`tool.get("overrides", {}).get(key)` and collect the value when it is
truthy. -/
def extractOverrideField (tools : List JVal) (key : String) : List JVal :=
  tools.foldl
    (fun acc t =>
      let v := (((t.objGet "overrides").getD (.obj .nil)).objGet key).getD .null
      if v.truthy then acc ++ [v] else acc)
    []

/-- Request payload built by `OpsBeaconClient.create_mcp_trigger`
(client.py lines 676-702): validates the name, derives `commands` and
`connections` from the tool instances and removes duplicates
(`list(set(...))` in the source — the order of the de-duplicated lists is
unspecified there, so only order-independent facts are proved about
them), and assembles the POST body with `kind="mcp"`. -/
def createMcpPayload (name description : String)
    (tool_instances : Option (List JVal)) (policies : Option (List String)) :
    PyResult JObj :=
  if name = "" then .raised (.validation (some "name"))
  else
    let tools := tool_instances.getD []
    let commands := (extractOverrideField tools "command").dedup
    let connections := (extractOverrideField tools "connection").dedup
    .ok (JObj.ofList
      [("name", .str name),
       ("description", .str description),
       ("kind", .str "mcp"),
       ("commands", .arr (JArr.ofList commands)),
       ("connections", .arr (JArr.ofList connections)),
       ("policies", .arr (JArr.ofList ((policies.getD []).map JVal.str))),
       ("mcpTriggerInfo", .obj (JObj.ofList [("toolInstances", .arr (JArr.ofList tools))]))])

/-- Read an array-valued field out of a successfully built payload
(empty list for error outcomes or non-array fields). -/
def payloadFieldArr (r : PyResult JObj) (k : String) : List JVal :=
  match r with
  | .ok p =>
    match p.get k with
    | some (.arr a) => a.toList
    | _ => []
  | _ => []

/-- First example tool instance of the C7 scenario: connection `x`,
command `a`. -/
def c7tool1 : JVal :=
  .obj (JObj.ofList
    [("overrides", .obj (JObj.ofList [("connection", .str "x"), ("command", .str "a")]))])

/-- Second example tool instance of the C7 scenario: connection `x`,
command `b`. -/
def c7tool2 : JVal :=
  .obj (JObj.ofList
    [("overrides", .obj (JObj.ofList [("connection", .str "x"), ("command", .str "b")]))])

/-- C7.  `create_mcp_trigger` derives the `commands` and `connections`
arrays of the creation request by collecting each instance's truthy
`overrides.command` / `overrides.connection` and de-duplicating with set
semantics: the resulting lists are duplicate-free and have exactly the
collected values as members; in particular two instances with connections
`x`,`x` and commands `a`,`b` produce a request with exactly one `x` in
`connections` and both `a` and `b` in `commands`. -/
theorem c7_create_mcp_dedup (name description : String) (tools : List JVal)
    (policies : Option (List String)) (hn : name ≠ "") :
    (∃ payload, createMcpPayload name description (some tools) policies = .ok payload) ∧
    payloadFieldArr (createMcpPayload name description (some tools) policies) "commands"
      = (extractOverrideField tools "command").dedup ∧
    payloadFieldArr (createMcpPayload name description (some tools) policies) "connections"
      = (extractOverrideField tools "connection").dedup ∧
    (payloadFieldArr (createMcpPayload name description (some tools) policies) "commands").Nodup ∧
    (payloadFieldArr (createMcpPayload name description (some tools) policies) "connections").Nodup ∧
    (∀ v, v ∈ payloadFieldArr (createMcpPayload name description (some tools) policies) "commands"
        ↔ v ∈ extractOverrideField tools "command") ∧
    (∀ v, v ∈ payloadFieldArr (createMcpPayload name description (some tools) policies) "connections"
        ↔ v ∈ extractOverrideField tools "connection") ∧
    (payloadFieldArr (createMcpPayload "t" "" (some [c7tool1, c7tool2]) none) "connections").count
      (JVal.str "x") = 1 ∧
    JVal.str "a" ∈ payloadFieldArr (createMcpPayload "t" "" (some [c7tool1, c7tool2]) none) "commands" ∧
    JVal.str "b" ∈ payloadFieldArr (createMcpPayload "t" "" (some [c7tool1, c7tool2]) none) "commands" := by
  have hcmd : payloadFieldArr (createMcpPayload name description (some tools) policies) "commands"
      = (extractOverrideField tools "command").dedup := by
    simp [createMcpPayload, hn, payloadFieldArr, JObj.ofList, JObj.get]
  have hconn : payloadFieldArr (createMcpPayload name description (some tools) policies) "connections"
      = (extractOverrideField tools "connection").dedup := by
    simp [createMcpPayload, hn, payloadFieldArr, JObj.ofList, JObj.get]
  have hok : ∃ payload, createMcpPayload name description (some tools) policies
      = PyResult.ok payload := by
    unfold createMcpPayload
    rw [if_neg hn]
    exact ⟨_, rfl⟩
  refine ⟨hok, hcmd, hconn, ?_, ?_, ?_, ?_, by decide, by decide, by decide⟩
  · rw [hcmd]; exact List.nodup_dedup _
  · rw [hconn]; exact List.nodup_dedup _
  · intro v; rw [hcmd]; exact List.mem_dedup
  · intro v; rw [hconn]; exact List.mem_dedup

/-- C7, witness: the concrete two-instance scenario, instantiating the
theorem at name `t`. -/
theorem c7_create_mcp_dedup_witness :
    (payloadFieldArr (createMcpPayload "t" "" (some [c7tool1, c7tool2]) none) "connections").count
      (JVal.str "x") = 1 ∧
    JVal.str "a" ∈ payloadFieldArr (createMcpPayload "t" "" (some [c7tool1, c7tool2]) none)
      "commands" :=
  ⟨(c7_create_mcp_dedup "t" "" [c7tool1, c7tool2] none (by decide)).2.2.2.2.2.2.2.1,
   (c7_create_mcp_dedup "t" "" [c7tool1, c7tool2] none (by decide)).2.2.2.2.2.2.2.2.1⟩

/-- Request payload built by `OpsBeaconClient.update_mcp_trigger`
(client.py lines 747-781), given the already-fetched existing trigger:
validates the name, rejects non-mcp triggers, recomputes
`commands`/`connections` from the new tool instances when supplied (else
keeps the stored values), keeps the stored description when none is
supplied, carries the stored `mcpTriggerInfo` forward, and replaces its
`toolInstances` entry when a new tool-instance list is supplied (a
non-dict stored `mcpTriggerInfo` would make that item assignment raise a
`TypeError`). -/
def updateMcpPayload (name : String) (description : Option String)
    (tool_instances : Option (List JVal)) (existing : JObj) : PyResult JObj :=
  if name = "" then .raised (.validation (some "name"))
  else if existing.get "kind" ≠ some (.str "mcp") then .raised (.mcpFailure (some name))
  else
    let commandsV : JVal :=
      match tool_instances with
      | some tools => .arr (JArr.ofList (extractOverrideField tools "command").dedup)
      | none => (existing.get "commands").getD (.arr .nil)
    let connectionsV : JVal :=
      match tool_instances with
      | some tools => .arr (JArr.ofList (extractOverrideField tools "connection").dedup)
      | none => (existing.get "connections").getD (.arr .nil)
    let descV : JVal :=
      match description with
      | some d => .str d
      | none => (existing.get "description").getD (.str "")
    let mcpInfo : JVal := (existing.get "mcpTriggerInfo").getD (.obj .nil)
    match tool_instances with
    | none =>
      .ok (JObj.ofList
        [("name", .str name), ("kind", .str "mcp"), ("description", descV),
         ("commands", commandsV), ("connections", connectionsV), ("mcpTriggerInfo", mcpInfo)])
    | some tools =>
      match mcpInfo with
      | .obj o =>
        .ok (JObj.ofList
          [("name", .str name), ("kind", .str "mcp"), ("description", descV),
           ("commands", commandsV), ("connections", connectionsV),
           ("mcpTriggerInfo", .obj (o.set "toolInstances" (.arr (JArr.ofList tools))))])
      | _ => .pyExn "TypeError"

/-- Lookup of a field in a successfully built payload. -/
def payloadGet (r : PyResult JObj) (k : String) : Option JVal :=
  match r with
  | .ok p => p.get k
  | _ => none

/-- Keys of a successfully built payload, in order. -/
def payloadKeys (r : PyResult JObj) : Option (List String) :=
  match r with
  | .ok p => some p.keys
  | _ => none

/-- Concrete stored mcp trigger used in the C2 scenario: it carries a
non-empty `policies` list. -/
def c2existing : JObj :=
  JObj.ofList
    [("name", .str "t"), ("kind", .str "mcp"), ("description", .str "d"),
     ("commands", .arr (JArr.ofList [.str "a"])),
     ("connections", .arr (JArr.ofList [.str "x"])),
     ("policies", .arr (JArr.ofList [.str "p1"])),
     ("mcpTriggerInfo", .obj (JObj.ofList [("toolInstances", .arr .nil)]))]

/-- C2, counterexample.  The PUT body built by `update_mcp_trigger`
contains only `name`, `kind`, `description`, `commands`, `connections`
and `mcpTriggerInfo`: for a stored mcp trigger whose `policies` list is
`["p1"]`, the body has no `policies` key at all, so the stored policies
list is not "sent back unchanged in the PUT request body" as the claim
states. -/
theorem c2_counterexample_policies_dropped :
    c2existing.get "policies" = some (.arr (JArr.ofList [.str "p1"])) ∧
    payloadKeys (updateMcpPayload "t" none none c2existing)
      = some ["name", "kind", "description", "commands", "connections", "mcpTriggerInfo"] ∧
    payloadGet (updateMcpPayload "t" none none c2existing) "policies" = none := by
  refine ⟨by decide, by decide, by decide⟩

/-- C2, amended.  For every existing trigger of kind mcp,
`update_mcp_trigger` is a merge-update over the fields it sends:
description is preserved when the description argument is None, the
commands and connections values are preserved when tool_instances is
None, the stored `mcpTriggerInfo` is carried forward with its
`toolInstances` entry wholly replaced when tool_instances is supplied —
but the PUT body contains only the six keys `name`, `kind`,
`description`, `commands`, `connections`, `mcpTriggerInfo`; the stored
policies list (like every other stored field) is omitted from the body,
not sent back. -/
theorem c2_update_merge (name : String) (existing : JObj) (hn : name ≠ "")
    (hk : existing.get "kind" = some (.str "mcp")) :
    (∀ d ti, payloadGet (updateMcpPayload name d ti existing) "policies" = none) ∧
    payloadKeys (updateMcpPayload name none none existing)
      = some ["name", "kind", "description", "commands", "connections", "mcpTriggerInfo"] ∧
    payloadGet (updateMcpPayload name none none existing) "description"
      = some ((existing.get "description").getD (.str "")) ∧
    (∀ tools o, (existing.get "mcpTriggerInfo").getD (.obj .nil) = .obj o →
      payloadGet (updateMcpPayload name none (some tools) existing) "description"
        = some ((existing.get "description").getD (.str ""))) ∧
    (∀ d, payloadGet (updateMcpPayload name d none existing) "commands"
        = some ((existing.get "commands").getD (.arr .nil)) ∧
      payloadGet (updateMcpPayload name d none existing) "connections"
        = some ((existing.get "connections").getD (.arr .nil)) ∧
      payloadGet (updateMcpPayload name d none existing) "mcpTriggerInfo"
        = some ((existing.get "mcpTriggerInfo").getD (.obj .nil))) ∧
    (∀ d tools o, (existing.get "mcpTriggerInfo").getD (.obj .nil) = .obj o →
      payloadGet (updateMcpPayload name d (some tools) existing) "mcpTriggerInfo"
        = some (.obj (o.set "toolInstances" (.arr (JArr.ofList tools))))) := by
  have hk2 : ¬(existing.get "kind" ≠ some (JVal.str "mcp")) := by simp [hk]
  refine ⟨fun d ti => ?_, ?_, ?_, fun tools o ho => ?_, fun d => ?_, fun d tools o ho => ?_⟩
  · cases ti with
    | none => simp [updateMcpPayload, hn, hk2, payloadGet, JObj.get, JObj.ofList]
    | some tools =>
      cases hm : (existing.get "mcpTriggerInfo").getD (.obj .nil) with
      | obj o => simp [updateMcpPayload, hn, hk2, hm, payloadGet, JObj.get, JObj.ofList]
      | null => simp [updateMcpPayload, hn, hk2, hm, payloadGet]
      | boolv b => simp [updateMcpPayload, hn, hk2, hm, payloadGet]
      | num n => simp [updateMcpPayload, hn, hk2, hm, payloadGet]
      | str s => simp [updateMcpPayload, hn, hk2, hm, payloadGet]
      | arr a => simp [updateMcpPayload, hn, hk2, hm, payloadGet]
  · simp [updateMcpPayload, hn, hk2, payloadKeys, JObj.keys, JObj.ofList]
  · simp [updateMcpPayload, hn, hk2, payloadGet, JObj.get, JObj.ofList]
  · simp [updateMcpPayload, hn, hk2, ho, payloadGet, JObj.get, JObj.ofList]
  · refine ⟨?_, ?_, ?_⟩ <;> simp [updateMcpPayload, hn, hk2, payloadGet, JObj.get, JObj.ofList]
  · simp [updateMcpPayload, hn, hk2, ho, payloadGet, JObj.get, JObj.ofList]

/-- C2, witness: for the concrete stored trigger of the scenario, the
built PUT body has no `policies` key. -/
theorem c2_update_merge_witness :
    payloadGet (updateMcpPayload "t" none none c2existing) "policies" = none :=
  (c2_update_merge "t" c2existing (by decide) (by decide)).1 none none

/-- The two upload modes `file_upload` can proceed in before issuing its
single POST: in-memory content with an explicit name, or a local file
path with a derived name. -/
inductive UploadMode where
  | contentMode (fname : String) (content : String)
  | pathMode (fname : String) (path : String)
  deriving DecidableEq, Repr

/-- `pathlib.Path(p).name` for ordinary paths: trailing slashes dropped,
then the part after the last slash. -/
def pathBasename (p : String) : String :=
  String.mk (((p.toList.reverse.dropWhile (fun c => c = '/')).takeWhile
    (fun c => c != '/')).reverse)

/-- Pre-network phase of `OpsBeaconClient.file_upload` (client.py lines
401-423): the branch on `file_content is not None` comes first, so
supplied content takes precedence over a supplied path; content mode
requires a truthy `file_name`; path mode checks existence before any
network call and raises a file-operation error tagged `upload` for a
missing file; with neither input a validation error is raised.
`fsExists` stands for the local filesystem. -/
def fileUploadPrep (file_content file_name input_file : Option String)
    (fsExists : String → Bool) : PyResult UploadMode :=
  match file_content with
  | some content =>
    if optStrTruthy file_name then .ok (.contentMode (file_name.getD "") content)
    else .raised (.validation (some "file_name"))
  | none =>
    match input_file with
    | some path =>
      if fsExists path then
        .ok (.pathMode (if optStrTruthy file_name then file_name.getD "" else pathBasename path)
          path)
      else .raised (.fileOperation (some path) (some "upload"))
    | none => .raised (.validation none)

/-- True when the outcome is a raised `ValidationError`. -/
def isRaisedValidation {α : Type} : PyResult α → Bool
  | .raised (.validation _) => true
  | _ => false

/-- C3, counterexample.  Supplying both input modes at once does not
raise a validation error: `file_content` takes precedence and the call
proceeds in content mode, ignoring `input_file` entirely (even a
nonexistent one). -/
theorem c3_counterexample_both_modes :
    fileUploadPrep (some "data") (some "f.csv") (some "ghost.txt") (fun _ => false)
      = .ok (.contentMode "f.csv" "data") ∧
    isRaisedValidation
      (fileUploadPrep (some "data") (some "f.csv") (some "ghost.txt") (fun _ => false))
      = false := by
  exact ⟨rfl, rfl⟩

/-- C3, amended.  `file_upload` with neither input raises a validation
error before any network call; content mode requires a truthy file name
(else validation error) and, when both modes are supplied, takes
precedence over the path mode rather than raising; in path mode a
nonexistent path raises a file-operation error tagged `upload` before any
network call, and an existing path proceeds. -/
theorem c3_file_upload_modes (fc fn inp : Option String) (fs : String → Bool) :
    (fc = none → inp = none → fileUploadPrep fc fn inp fs = .raised (.validation none)) ∧
    (∀ c, fc = some c → optStrTruthy fn = false →
      fileUploadPrep fc fn inp fs = .raised (.validation (some "file_name"))) ∧
    (∀ c, fc = some c → optStrTruthy fn = true →
      fileUploadPrep fc fn inp fs = .ok (.contentMode (fn.getD "") c)) ∧
    (∀ p, fc = none → inp = some p → fs p = false →
      fileUploadPrep fc fn inp fs = .raised (.fileOperation (some p) (some "upload"))) ∧
    (∀ p, fc = none → inp = some p → fs p = true →
      fileUploadPrep fc fn inp fs
        = .ok (.pathMode (if optStrTruthy fn then fn.getD "" else pathBasename p) p)) := by
  refine ⟨fun h1 h2 => ?_, fun c h1 h2 => ?_, fun c h1 h2 => ?_, fun p h1 h2 h3 => ?_,
    fun p h1 h2 h3 => ?_⟩ <;> simp [fileUploadPrep, h1, h2]
  · simp [h3]
  · simp [h3]

/-- C3, witness: a missing local file raises the file-operation error
tagged `upload`. -/
theorem c3_file_upload_modes_witness :
    fileUploadPrep none none (some "ghost.txt") (fun _ => false)
      = .raised (.fileOperation (some "ghost.txt") (some "upload")) :=
  (c3_file_upload_modes none none (some "ghost.txt") (fun _ => false)).2.2.2.1 "ghost.txt"
    rfl rfl rfl

/-- Does a tool instance match a tool name the way
`remove_tool_from_mcp_trigger` compares:
`t.get("overrides", {}).get("name") == tool_name`? -/
def toolNameIs (tool_name : String) (t : JVal) : Bool :=
  ((t.objGet "overrides").getD (.obj .nil)).objGet "name" == some (.str tool_name)

/-- `OpsBeaconClient.remove_tool_from_mcp_trigger` (client.py lines
907-927), given the already-fetched trigger: validates both names,
rejects non-mcp triggers, filters the tool-instance list by
`overrides.name != tool_name`, raises resource-not-found for the tool
when the filtered list is as long as the original (nothing removed), and
otherwise proceeds to `update_mcp_trigger` with the filtered list — the
`.ok` payload is exactly that list, so a resource-not-found outcome
carries no update. -/
def removeToolPrep (trigger_name tool_name : String) (trigger : JObj) :
    PyResult (List JVal) :=
  if trigger_name = "" then .raised (.validation (some "trigger_name"))
  else if tool_name = "" then .raised (.validation (some "tool_name"))
  else if trigger.get "kind" ≠ some (.str "mcp") then .raised (.mcpFailure (some trigger_name))
  else
    let mcpInfo := (trigger.get "mcpTriggerInfo").getD (.obj .nil)
    let toolsV := (mcpInfo.objGet "toolInstances").getD (.arr .nil)
    match toolsV with
    | .arr a =>
      let ts := a.toList
      let updated := ts.filter (fun t => !(toolNameIs tool_name t))
      if updated.length = ts.length then .raised (.resourceNotFound "Tool" tool_name)
      else .ok updated
    | _ => .pyExn "TypeError"

/-- C4.  For an mcp trigger whose tool-instance list contains no instance
with `overrides.name` equal to the given tool name,
`remove_tool_from_mcp_trigger` raises resource-not-found for the tool and
issues no update (the outcome is the raised error, not a proceed-to-PUT
one); when at least one instance matches, it proceeds to update with
exactly the instances whose `overrides.name` differs from the tool
name. -/
theorem c4_remove_tool (trigger_name tool_name : String) (trigger : JObj) (ts : List JVal)
    (h1 : trigger_name ≠ "") (h2 : tool_name ≠ "")
    (hk : trigger.get "kind" = some (.str "mcp"))
    (hts : (((trigger.get "mcpTriggerInfo").getD (.obj .nil)).objGet "toolInstances").getD
        (.arr .nil) = .arr (JArr.ofList ts)) :
    ((∀ t ∈ ts, ¬ toolNameIs tool_name t) →
      removeToolPrep trigger_name tool_name trigger
        = .raised (.resourceNotFound "Tool" tool_name)) ∧
    ((∃ t ∈ ts, toolNameIs tool_name t) →
      removeToolPrep trigger_name tool_name trigger
        = .ok (ts.filter (fun t => !(toolNameIs tool_name t)))) := by
  have hk2 : ¬(trigger.get "kind" ≠ some (JVal.str "mcp")) := by simp [hk]
  constructor
  · intro hall
    have hlen : (ts.filter (fun t => !(toolNameIs tool_name t))).length = ts.length :=
      List.filter_length_eq_length.mpr (fun a ha => by simp [hall a ha])
    simp [removeToolPrep, h1, h2, hk2, hts, hlen]
  · rintro ⟨t, ht, hpt⟩
    have hlen : (ts.filter (fun t => !(toolNameIs tool_name t))).length ≠ ts.length := by
      intro hc
      have hall := List.filter_length_eq_length.mp hc t ht
      simp [hpt] at hall
    simp [removeToolPrep, h1, h2, hk2, hts, hlen]

/-- Concrete tool instance named `alpha`, for the C4 witness. -/
def c4toolA : JVal :=
  .obj (JObj.ofList [("overrides", .obj (JObj.ofList [("name", .str "alpha")]))])

/-- Concrete mcp trigger holding only the `alpha` tool, for the C4
witness. -/
def c4trigger : JObj :=
  JObj.ofList
    [("name", .str "trig"), ("kind", .str "mcp"),
     ("mcpTriggerInfo", .obj (JObj.ofList [("toolInstances", .arr (JArr.ofList [c4toolA]))]))]

/-- C4, witness: removing the absent tool `ghost` raises
resource-not-found for the tool and does not proceed to an update. -/
theorem c4_remove_tool_witness :
    removeToolPrep "trig" "ghost" c4trigger = .raised (.resourceNotFound "Tool" "ghost") :=
  (c4_remove_tool "trig" "ghost" c4trigger [c4toolA] (by decide) (by decide) (by decide)
    (by decide)).1 (by decide)

/-- `OpsBeaconClient.get_trigger` (client.py lines 630-642): after the
non-empty-name check it issues a direct GET by name (`direct` is that
call's outcome); on any `APIError` (the not-found classification
included) it lists all triggers (`listOutcome`) and linearly scans them
by name, returning the first match and raising resource-not-found with
type `Trigger` and the name only when no entry matches; non-APIError
failures propagate. -/
def getTriggerModel (name : String) (direct : PyResult JVal)
    (listOutcome : PyResult (List JVal)) : PyResult JVal :=
  if name = "" then .raised (.validation (some "name"))
  else
    match direct with
    | .ok body => .ok body
    | .raised e =>
      if e.isAPIError then
        match listOutcome with
        | .ok all =>
          match all.find? (fun t => t.objGet "name" == some (.str name)) with
          | some t => .ok t
          | none => .raised (.resourceNotFound "Trigger" name)
        | .raised e2 => .raised e2
        | .pyExn m => .pyExn m
      else .raised e
    | .pyExn m => .pyExn m

/-- C5.  For a non-empty trigger name whose direct GET fails with a
not-found-class API error, `get_trigger` falls back to the full trigger
list and scans it by name: it returns the first matching entry when one
exists and raises resource-not-found carrying the type `Trigger` and the
name only when the scan finds no match; a successful direct GET is
returned as-is without consulting the list. -/
theorem c5_get_trigger_fallback (name : String) (e : OBError) (all : List JVal)
    (hn : name ≠ "") (he : e.isAPIError = true) :
    (∀ t, all.find? (fun t => t.objGet "name" == some (.str name)) = some t →
      getTriggerModel name (.raised e) (.ok all) = .ok t) ∧
    (all.find? (fun t => t.objGet "name" == some (.str name)) = none →
      getTriggerModel name (.raised e) (.ok all)
        = .raised (.resourceNotFound "Trigger" name)) ∧
    (∀ body, getTriggerModel name (.ok body) (.ok all) = .ok body) := by
  refine ⟨fun t ht => ?_, fun hnone => ?_, fun body => ?_⟩
  · simp [getTriggerModel, hn, he, ht]
  · simp [getTriggerModel, hn, he, hnone]
  · simp [getTriggerModel, hn]

/-- Concrete trigger entry named `x`, for the C5 witness. -/
def c5entry : JVal := .obj (JObj.ofList [("name", .str "x"), ("kind", .str "webHook")])

/-- C5, witness: when the direct GET fails with the 404-classified
`APIError` but the trigger list contains an entry named `x`, that entry
is returned instead of raising. -/
theorem c5_get_trigger_fallback_witness :
    getTriggerModel "x" (.raised (.apiError (some 404) (some ""))) (.ok [c5entry])
      = .ok c5entry :=
  (c5_get_trigger_fallback "x" (.apiError (some 404) (some "")) [c5entry] (by decide)
    rfl).1 c5entry (by decide)

/-- `OpsBeaconClient.triggers` (client.py lines 582-601): fetches the
server trigger list and, when a truthy `kind` is given, keeps exactly the
entries whose `kind` field equals it. -/
def triggersFilter (kind : Option String) (serverTriggers : List JVal) : List JVal :=
  if optStrTruthy kind then
    serverTriggers.filter (fun t => t.objGet "kind" == some (.str (kind.getD "")))
  else serverTriggers

/-- `OpsBeaconClient.mcp_triggers` (client.py lines 603-613): exactly
`triggers(kind="mcp")`. -/
def mcpTriggersModel (serverTriggers : List JVal) : List JVal :=
  triggersFilter (some "mcp") serverTriggers

/-- The C8 scenario entry `t1` of kind `mcp`. -/
def c8t1 : JVal := .obj (JObj.ofList [("name", .str "t1"), ("kind", .str "mcp")])

/-- The C8 scenario entry `t2` of kind `webHook`. -/
def c8t2 : JVal := .obj (JObj.ofList [("name", .str "t2"), ("kind", .str "webHook")])

/-- C8.  For every server trigger list, `triggers(kind=K)` (for the
non-empty kind tags of the data model) is exactly the subsequence of the
list whose entries have kind `K`, preserving relative order;
`mcp_triggers()` is `triggers(kind="mcp")`; and the mock list containing
`t1` (mcp) and `t2` (webHook) yields exactly `[t1]` from
`mcp_triggers()`. -/
theorem c8_triggers_kind_filter (K : String) (L : List JVal) (hK : K ≠ "") :
    List.Sublist (triggersFilter (some K) L) L ∧
    (∀ t, t ∈ triggersFilter (some K) L ↔ t ∈ L ∧ t.objGet "kind" = some (.str K)) ∧
    mcpTriggersModel L = triggersFilter (some "mcp") L ∧
    mcpTriggersModel [c8t1, c8t2] = [c8t1] := by
  have hopt : optStrTruthy (some K) = true := by simp [optStrTruthy, hK]
  refine ⟨?_, fun t => ?_, rfl, by decide⟩
  · simp only [triggersFilter, hopt, if_pos]
    exact List.filter_sublist L
  · simp [triggersFilter, hopt, List.mem_filter]

/-- C8, witness: the concrete two-entry scenario instantiated at kind
`mcp`. -/
theorem c8_triggers_kind_filter_witness :
    mcpTriggersModel [c8t1, c8t2] = [c8t1] :=
  (c8_triggers_kind_filter "mcp" [c8t1, c8t2] (by decide)).2.2.2

/-- `OpsBeaconClient.get_mcp_trigger_url` (client.py lines 808-830):
after the non-empty-name check, calls `get_trigger` (outcome supplied as
`getResult`); a raised `ResourceNotFoundError` is swallowed and `None`
returned; an existing trigger yields its `triggerUrl` field only when its
kind is `mcp`, and `None` otherwise (also `None` when the field is
absent); any other failure propagates. -/
def getMcpTriggerUrl (name : String) (getResult : PyResult JVal) : PyResult (Option JVal) :=
  if name = "" then .raised (.validation (some "name"))
  else
    match getResult with
    | .ok trig =>
      if trig.objGet "kind" == some (.str "mcp") then .ok (trig.objGet "triggerUrl")
      else .ok none
    | .raised e => if e.isResourceNotFound then .ok none else .raised e
    | .pyExn m => .pyExn m

/-- C10.  For every non-empty trigger name, `get_mcp_trigger_url` never
raises resource-not-found: a resource-not-found failure of `get_trigger`
or a non-mcp existing trigger yields `None`, and only an existing trigger
of kind mcp yields its `triggerUrl` field (absent field included, as
`None`). -/
theorem c10_get_mcp_trigger_url (name : String) (getResult : PyResult JVal)
    (hn : name ≠ "") :
    (∀ rt ri, getMcpTriggerUrl name getResult ≠ .raised (.resourceNotFound rt ri)) ∧
    (∀ rt ri, getResult = .raised (.resourceNotFound rt ri) →
      getMcpTriggerUrl name getResult = .ok none) ∧
    (∀ trig, getResult = .ok trig → trig.objGet "kind" ≠ some (.str "mcp") →
      getMcpTriggerUrl name getResult = .ok none) ∧
    (∀ trig, getResult = .ok trig → trig.objGet "kind" = some (.str "mcp") →
      getMcpTriggerUrl name getResult = .ok (trig.objGet "triggerUrl")) := by
  refine ⟨fun rt ri => ?_, fun rt ri hr => ?_, fun trig hr hkind => ?_, fun trig hr hkind => ?_⟩
  · cases getResult with
    | ok trig =>
      simp only [getMcpTriggerUrl, hn, if_neg]
      split
      · simp
      · split <;> simp
    | raised e =>
      cases e <;> simp [getMcpTriggerUrl, hn, OBError.isResourceNotFound]
    | pyExn m => simp [getMcpTriggerUrl, hn]
  · simp [getMcpTriggerUrl, hn, hr, OBError.isResourceNotFound]
  · simp [getMcpTriggerUrl, hn, hr, hkind]
  · simp [getMcpTriggerUrl, hn, hr, hkind]

/-- C10, witness: a resource-not-found failure of the underlying
`get_trigger` yields `None` rather than an error. -/
theorem c10_get_mcp_trigger_url_witness :
    getMcpTriggerUrl "t" (.raised (.resourceNotFound "Trigger" "t")) = .ok none :=
  (c10_get_mcp_trigger_url "t" (.raised (.resourceNotFound "Trigger" "t"))
    (by decide)).2.1 "Trigger" "t" rfl

/-- Outcome of one JSON-RPC POST in `test_mcp_protocol`: a parsed 2xx
response body, or a `requests.RequestException` (connection failure,
timeout, or a non-2xx status via `raise_for_status`). -/
inductive StepResult where
  | okResp (body : JVal)
  | failed (msg : String)
  deriving DecidableEq, Repr

/-- The `results` dict returned by `test_mcp_protocol`, plus the
`tools/call` request body it sent (when it sent one), so the executed
tool and its arguments are observable. -/
structure McpTestResults where
  initResult : Option JVal
  toolsResult : Option JVal
  execResult : Option JVal
  execRequest : Option JObj
  success : Bool
  deriving DecidableEq, Repr

/-- The captured-error dict stored for a failed step. -/
def errObj (msg : String) : JVal := .obj (.cons "error" (.str msg) .nil)

/-- Tool extraction from the `tools/list` response:
`tools_response["result"]["tools"]` when both keys are present (else the
empty list); bodies are dict-shaped and the tools value array-shaped in
the modelled domain. -/
def extractTools (listBody : JVal) : List JVal :=
  match listBody.objGet "result" with
  | some r =>
    match r.objGet "tools" with
    | some (.arr a) => a.toList
    | _ => []
  | none => []

/-- The `tools/call` JSON-RPC request built for a selected tool: its
`overrides`-visible name and empty arguments. -/
def toolsCallRequest (t : JVal) : JObj :=
  JObj.ofList
    [("jsonrpc", .str "2.0"), ("method", .str "tools/call"),
     ("params", .obj (JObj.ofList
       [("name", (t.objGet "name").getD .null), ("arguments", .obj .nil)])),
     ("id", .num 3)]

/-- Tool selection in step 3 of `test_mcp_protocol`: when a truthy tool
name was supplied, search the discovered tools for one whose `name`
equals it; a truthy match is executed, while no match or a falsy match
falls back to the first listed tool (`tools[0]`, supplied as `t0`). -/
def selectTool (tool_name : Option String) (t0 : JVal) (tools : List JVal) : JVal :=
  match
    (if optStrTruthy tool_name then
      tools.find? (fun t => t.objGet "name" == some (.str (tool_name.getD "")))
    else none) with
  | some t => if t.truthy then t else t0
  | none => t0

/-- `OpsBeaconClient.test_mcp_protocol` (client.py lines 961-1035): a
fixed three-step sequence whose per-step transport outcomes are supplied
as `initR`, `listR`, `callR`.  A failed step stores the captured error
and short-circuits, leaving `success` false.  With tools discovered, the
tool matching a truthy caller-supplied name is preferred (a falsy match
falls back, as does no match) else the first listed tool, and the
`tools/call` request is sent with empty arguments; `success` becomes true
exactly when the call response contains a `result` key.  With no tools,
an informational marker is recorded and `success` stays false. -/
def testMcpProtocol (tool_name : Option String) (initR listR callR : StepResult) :
    McpTestResults :=
  match initR with
  | .failed m => ⟨some (errObj m), none, none, none, false⟩
  | .okResp initBody =>
    match listR with
    | .failed m => ⟨some initBody, some (errObj m), none, none, false⟩
    | .okResp listBody =>
      match extractTools listBody with
      | [] =>
        ⟨some initBody, some listBody,
         some (.obj (.cons "message" (.str "No tools available to execute") .nil)),
         none, false⟩
      | t0 :: rest =>
        let chosen : JVal := selectTool tool_name t0 (t0 :: rest)
        if chosen.truthy then
          match callR with
          | .okResp callBody =>
            ⟨some initBody, some listBody, some callBody, some (toolsCallRequest chosen),
             (callBody.objGet "result").isSome⟩
          | .failed m =>
            ⟨some initBody, some listBody, some (errObj m), some (toolsCallRequest chosen),
             false⟩
        else ⟨some initBody, some listBody, none, none, false⟩

theorem selectTool_truthy (tool_name : Option String) (t0 : JVal) (tools : List JVal)
    (h : t0.truthy = true) : (selectTool tool_name t0 tools).truthy = true := by
  unfold selectTool
  cases hf : (if optStrTruthy tool_name then
      tools.find? (fun t => t.objGet "name" == some (.str (tool_name.getD "")))
    else none) with
  | none => simpa using h
  | some t =>
    by_cases ht : t.truthy
    · simp [ht]
    · simp [ht, h]

/-- C9.  In `test_mcp_protocol`, when tools were discovered the executed
tool is the one matching a truthy caller-supplied name when present,
else the first listed tool — both when no name was supplied and when the
supplied name matches no discovered tool — invoked with empty arguments;
the success flag is true iff the `tools/call` response contains a
`result` key; a transport failure at any step, a call body without a
`result` key, or an empty tool list all leave success false, the last
case recording the no-tools marker. -/
theorem c9_test_mcp_protocol (tool_name : Option String) (initBody listBody : JVal)
    (callR : StepResult) :
    (∀ nm tsel, tool_name = some nm → nm ≠ "" →
      (extractTools listBody).find? (fun t => t.objGet "name" == some (.str nm)) = some tsel →
      tsel.truthy = true →
      (testMcpProtocol tool_name (.okResp initBody) (.okResp listBody) callR).execRequest
        = some (toolsCallRequest tsel)) ∧
    (∀ t0 rest, extractTools listBody = t0 :: rest → tool_name = none → t0.truthy = true →
      (testMcpProtocol tool_name (.okResp initBody) (.okResp listBody) callR).execRequest
        = some (toolsCallRequest t0)) ∧
    (∀ nm t0 rest, tool_name = some nm → nm ≠ "" → extractTools listBody = t0 :: rest →
      (extractTools listBody).find? (fun t => t.objGet "name" == some (.str nm)) = none →
      t0.truthy = true →
      (testMcpProtocol tool_name (.okResp initBody) (.okResp listBody) callR).execRequest
        = some (toolsCallRequest t0)) ∧
    (∀ t, (((toolsCallRequest t).get "params").getD .null).objGet "arguments"
      = some (.obj .nil)) ∧
    (∀ t0 rest callBody, extractTools listBody = t0 :: rest → t0.truthy = true →
      callR = .okResp callBody →
      ((testMcpProtocol tool_name (.okResp initBody) (.okResp listBody) callR).success = true
        ↔ (callBody.objGet "result").isSome = true)) ∧
    (∀ m, callR = .failed m →
      (testMcpProtocol tool_name (.okResp initBody) (.okResp listBody) callR).success
        = false) ∧
    (extractTools listBody = [] →
      (testMcpProtocol tool_name (.okResp initBody) (.okResp listBody) callR).execResult
        = some (.obj (.cons "message" (.str "No tools available to execute") .nil)) ∧
      (testMcpProtocol tool_name (.okResp initBody) (.okResp listBody) callR).success
        = false) ∧
    (∀ m lR cR, (testMcpProtocol tool_name (.failed m) lR cR).success = false) ∧
    (∀ m cR, (testMcpProtocol tool_name (.okResp initBody) (.failed m) cR).success = false) := by
  refine ⟨?_, ?_, ?_, ?_, ?_, ?_, ?_, fun m lR cR => rfl, fun m cR => rfl⟩
  · intro nm tsel hnm hne hfind htr
    cases hl : extractTools listBody with
    | nil => rw [hl] at hfind; simp at hfind
    | cons t0 rest =>
      rw [hl] at hfind
      have hsel : selectTool tool_name t0 (t0 :: rest) = tsel := by
        simp [selectTool, hnm, optStrTruthy, hne, hfind, htr]
      cases callR <;> simp [testMcpProtocol, hl, hsel, htr]
  · intro t0 rest hl hnone ht0
    subst hnone
    have hsel : selectTool none t0 (t0 :: rest) = t0 := by
      simp [selectTool, optStrTruthy]
    cases callR <;> simp [testMcpProtocol, hl, hsel, ht0]
  · intro nm t0 rest hnm hne hl hfind ht0
    rw [hl] at hfind
    have hsel : selectTool tool_name t0 (t0 :: rest) = t0 := by
      simp [selectTool, hnm, optStrTruthy, hne, hfind]
    cases callR <;> simp [testMcpProtocol, hl, hsel, ht0]
  · intro t
    simp [toolsCallRequest, JObj.get, JObj.ofList, JVal.objGet]
  · intro t0 rest callBody hl ht0 hcall
    subst hcall
    have hsel := selectTool_truthy tool_name t0 (t0 :: rest) ht0
    simp [testMcpProtocol, hl, hsel]
  · intro m hm
    subst hm
    cases hl : extractTools listBody with
    | nil => simp [testMcpProtocol, hl]
    | cons t0 rest =>
      simp only [testMcpProtocol, hl]
      split <;> rfl
  · intro hl
    exact ⟨by simp [testMcpProtocol, hl], by simp [testMcpProtocol, hl]⟩

/-- Concrete discovered tool named `alpha`, for the C9 witness. -/
def c9tool : JVal := .obj (JObj.ofList [("name", .str "alpha")])

/-- Concrete `tools/list` response body listing only `alpha`, for the C9
witness. -/
def c9listBody : JVal :=
  .obj (JObj.ofList [("result", .obj (JObj.ofList [("tools", .arr (JArr.ofList [c9tool]))]))])

/-- C9, witness: with tool name `alpha` supplied and present, the
`tools/call` request targets exactly that tool. -/
theorem c9_test_mcp_protocol_witness :
    (testMcpProtocol (some "alpha") (.okResp .null) (.okResp c9listBody)
      (.okResp (.obj (JObj.ofList [("result", .str "ok")])))).execRequest
      = some (toolsCallRequest c9tool) :=
  (c9_test_mcp_protocol (some "alpha") .null c9listBody
    (.okResp (.obj (JObj.ofList [("result", .str "ok")])))).1 "alpha" c9tool rfl (by decide)
    (by decide) (by decide)
